import Mathlib

/-!
Verification of the m3s JPEG/EXIF timestamp extractor (`src/jpg.rs`).

The Rust code is shallowly embedded over `List Nat` byte buffers.  Rust
slice indexing `&xs[a..b]` panics when out of range; panics are modelled
by an outer `Option` layer: `none` means the Rust code panics, `some r`
means it returns the value `r`.  `Result<T, E>` is modelled by
`Except String T` (only the messages of the `ensure!` failures are kept
verbatim; `anyhow` messages built with interpolation are modelled by a
fixed string, since no property depends on their exact text).
-/

/-- Rust `&xs[a..b]` on a slice: `none` models the out-of-range panic. -/
def slice? (xs : List Nat) (a b : Nat) : Option (List Nat) :=
  if a ≤ b ∧ b ≤ xs.length then some ((xs.drop a).take (b - a)) else none

/-- Rust `&xs[a..]` on a slice: `none` models the out-of-range panic. -/
def sliceFrom? (xs : List Nat) (a : Nat) : Option (List Nat) :=
  if a ≤ xs.length then some (xs.drop a) else none

/-- `u16::from_be_bytes` on a 2-byte slice.  Every call site passes a
slice of length exactly 2 (so the `try_into().unwrap()` in the source
cannot fail); the default arm is unreachable. -/
def be16 (bs : List Nat) : Nat :=
  match bs with
  | [a, b] => 256 * a + b
  | _ => 0

/-- `u16::from_le_bytes` on a 2-byte slice (little endian). -/
def le16 (bs : List Nat) : Nat :=
  match bs with
  | [a, b] => a + 256 * b
  | _ => 0

/-- `u32::from_le_bytes` on a 4-byte slice (little endian). -/
def le32 (bs : List Nat) : Nat :=
  match bs with
  | [a, b, c, d] => a + 256 * b + 65536 * c + 16777216 * d
  | _ => 0

/-- Two's-complement reinterpretation: `iN::from_le_bytes` of an unsigned
value `u` with modulus `m = 2^N`. -/
def toSigned (u m : Nat) : Int :=
  if 2 * u < m then (u : Int) else (u : Int) - (m : Int)

instance instDecEqExcept {e a : Type} [DecidableEq e] [DecidableEq a] :
    DecidableEq (Except e a)
  | .ok x, .ok y =>
    if h : x = y then .isTrue (by rw [h]) else .isFalse (fun hh => by cases hh; exact h rfl)
  | .error x, .error y =>
    if h : x = y then .isTrue (by rw [h]) else .isFalse (fun hh => by cases hh; exact h rfl)
  | .ok _, .error _ => .isFalse (fun hh => by cases hh)
  | .error _, .ok _ => .isFalse (fun hh => by cases hh)

/-- A UTF-8 continuation byte. -/
def utf8Cont (b : Nat) : Bool := 0x80 ≤ b ∧ b ≤ 0xBF

/-- Lower bound of the first continuation byte of a multi-byte UTF-8
sequence with lead byte `b` (UTF-8 excludes overlong encodings and
surrogates, so `0xE0`/`0xF0` leads restrict it). -/
def utf8Cont1Lo (b : Nat) : Nat :=
  if b = 0xE0 then 0xA0 else if b = 0xF0 then 0x90 else 0x80

/-- Upper bound of the first continuation byte of a multi-byte UTF-8
sequence with lead byte `b` (`0xED` caps at `0x9F` to exclude
surrogates, `0xF4` at `0x8F` to cap at `U+10FFFF`). -/
def utf8Cont1Hi (b : Nat) : Nat :=
  if b = 0xED then 0x9F else if b = 0xF4 then 0x8F else 0xBF

/-- The UTF-8 encoding of U+FFFD, the replacement character. -/
def utf8Repl : List Nat := [0xEF, 0xBF, 0xBD]

/-- Worker for `utf8Lossy`.  The `fuel` argument only makes the recursion
structural (so the kernel can evaluate it); each step consumes at least
one input byte, so `fuel = input length` never runs out. -/
def utf8LossyAux : Nat → List Nat → List Nat
  | 0, _ => []
  | _, [] => []
  | fuel + 1, b :: rest =>
    if b ≤ 0x7F then b :: utf8LossyAux fuel rest
    else if 0xC2 ≤ b ∧ b ≤ 0xDF then
      match rest with
      | [] => utf8Repl
      | c :: rest2 =>
        if utf8Cont c then b :: c :: utf8LossyAux fuel rest2
        else utf8Repl ++ utf8LossyAux fuel rest
    else if 0xE0 ≤ b ∧ b ≤ 0xEF then
      match rest with
      | [] => utf8Repl
      | c :: rest2 =>
        if utf8Cont1Lo b ≤ c ∧ c ≤ utf8Cont1Hi b then
          match rest2 with
          | [] => utf8Repl
          | d :: rest3 =>
            if utf8Cont d then b :: c :: d :: utf8LossyAux fuel rest3
            else utf8Repl ++ utf8LossyAux fuel rest2
        else utf8Repl ++ utf8LossyAux fuel rest
    else if 0xF0 ≤ b ∧ b ≤ 0xF4 then
      match rest with
      | [] => utf8Repl
      | c :: rest2 =>
        if utf8Cont1Lo b ≤ c ∧ c ≤ utf8Cont1Hi b then
          match rest2 with
          | [] => utf8Repl
          | d :: rest3 =>
            if utf8Cont d then
              match rest3 with
              | [] => utf8Repl
              | e2 :: rest4 =>
                if utf8Cont e2 then b :: c :: d :: e2 :: utf8LossyAux fuel rest4
                else utf8Repl ++ utf8LossyAux fuel rest3
            else utf8Repl ++ utf8LossyAux fuel rest2
        else utf8Repl ++ utf8LossyAux fuel rest
    else utf8Repl ++ utf8LossyAux fuel rest

/-- Rust `String::from_utf8_lossy(bs).into_owned()`, at the byte level:
the UTF-8 bytes of the resulting `String`.  Valid UTF-8 is preserved
byte-for-byte; each maximal subpart of an invalid sequence is replaced
by U+FFFD, per the WHATWG substitution algorithm Rust implements. -/
def utf8Lossy (bs : List Nat) : List Nat := utf8LossyAux bs.length bs

/-- `time::PrimitiveDateTime`, restricted to the fields the format
description `"[year]:[month]:[day] [hour]:[minute]:[second]"` sets:
a calendar date plus a time of day with second resolution. -/
structure DateTime where
  year : Int
  month : Nat
  day : Nat
  hour : Nat
  minute : Nat
  second : Nat
deriving DecidableEq, Repr

/-- Consume exactly `n` ASCII digits, returning their value and the rest
of the input (`time`'s `exactly_n_digits` with zero padding). -/
def parseNDigits : Nat → List Nat → Nat → Option (Nat × List Nat)
  | 0, s, acc => some (acc, s)
  | n + 1, b :: rest, acc =>
    if 48 ≤ b ∧ b ≤ 57 then parseNDigits n rest (acc * 10 + (b - 48)) else none
  | _ + 1, [], _ => none

/-- Consume one expected literal byte. -/
def expectByte (c : Nat) : List Nat → Option (List Nat)
  | b :: rest => if b = c then some rest else none
  | [] => none

/-- The proleptic-Gregorian leap-year rule used by the `time` crate. -/
def isLeapYear (y : Int) : Bool := y % 4 = 0 ∧ (y % 100 ≠ 0 ∨ y % 400 = 0)

/-- Days in a month, as in `time`'s `days_in_year_month`. -/
def daysInMonth (y : Int) (m : Nat) : Nat :=
  match m with
  | 2 => if isLeapYear y then 29 else 28
  | 4 | 6 | 9 | 11 => 30
  | _ => 31

/-- Model of `time::PrimitiveDateTime::parse` against the fixed format
description `"[year]:[month]:[day] [hour]:[minute]:[second]"` (all
components zero-padded numeric), operating on the UTF-8 bytes of the
input string.  `[year]` admits an optional leading sign then exactly
four digits; the other components are exactly two digits.  Range
checks mirror `Parsed`'s bounded setters (month 1–12 via
`Month::from_number`, day 1–31, hour 0–23, minute/second 0–59), then
`Date::from_calendar_date` checks the day against the month length.
Trailing unconsumed input is an error (`UnexpectedTrailingCharacters`).
`none` models any `Err` of the Rust parse. -/
def parsePrimitiveDateTime (s : List Nat) : Option DateTime := do
  let (sgn, s) : Int × List Nat :=
    match s with
    | 43 :: r => (1, r)
    | 45 :: r => (-1, r)
    | _ => (1, s)
  let (y, s) ← parseNDigits 4 s 0
  let s ← expectByte 58 s
  let (mo, s) ← parseNDigits 2 s 0
  if mo < 1 ∨ 12 < mo then none else
  let s ← expectByte 58 s
  let (d, s) ← parseNDigits 2 s 0
  if d < 1 ∨ 31 < d then none else
  let s ← expectByte 32 s
  let (h, s) ← parseNDigits 2 s 0
  if 23 < h then none else
  let s ← expectByte 58 s
  let (mi, s) ← parseNDigits 2 s 0
  if 59 < mi then none else
  let s ← expectByte 58 s
  let (sec, s) ← parseNDigits 2 s 0
  if 59 < sec then none else
  if ¬ s.isEmpty then none else
  let year : Int := sgn * y
  if daysInMonth year mo < d then none else
  some ⟨year, mo, d, h, mi, sec⟩

/-- The `ensure!` message of the SOI check (`src/jpg.rs` line 5). -/
def msgSOI : String := "Missing SOI marker"

/-- The `ensure!` message of the marker-prefix check (line 7). -/
def msgMarker : String := "Expected start of marker"

/-- The `ensure!` message of the EXIF signature check (lines 19–22);
the typo is the source's. -/
def msgExif : String := "Invaid exif header"

/-- The `ensure!` message of the TIFF signature check (lines 24–27). -/
def msgTiff : String := "Invaid tiff header"

/-- Stands for the interpolated `anyhow!` message of the wrong-variant
failure (lines 52–55); no claim depends on its exact text. -/
def msgWrongType : String := "DateTime entry contained invalid data format"

/-- Stands for the `time` parse error propagated by `?` (line 60); no
claim depends on its exact text. -/
def msgBadDateTime : String := "invalid datetime string"

/-- The Start-Of-Image marker `0xFF 0xD8`. -/
def soiSig : List Nat := [0xff, 0xd8]

/-- The EXIF signature bytes compared at `app1_data[2..8]`. -/
def exifSig : List Nat := [0x45, 0x78, 0x69, 0x66, 0x00, 0x00]

/-- The little-endian TIFF signature compared at `app1_data[8..12]`. -/
def tiffSig : List Nat := [0x49, 0x49, 0x2a, 0x00]

/-- The `IFDValue` enum of `src/jpg.rs`.  Strings carry the UTF-8 bytes
of the lossily decoded `String`; the float variants carry the raw bytes
handed to `f32::from_be_bytes` / `f64::from_le_bytes` (the bit pattern,
in the order the source reads it), since no claim inspects a float
numerically. -/
inductive IFDValue where
  | UnsignedByte (v : Nat)
  | AsciiStrings (s : List Nat)
  | UnsignedShort (v : Nat)
  | UnsignedLong (v : Nat)
  | UnsignedRational
  | SignedByte (v : Int)
  | Undefined (bs : List Nat)
  | SignedShort (v : Int)
  | SignedLong (v : Int)
  | SignedRational
  | SingleFloat (beBytes : List Nat)
  | DoubleFloat (leBytes : List Nat)
deriving DecidableEq, Repr

/-- The `IFDEntry` struct of `src/jpg.rs`. -/
structure IFDEntry where
  tag : Nat
  data : IFDValue
deriving DecidableEq, Repr

/-- The per-type byte-width table of `parse_ifd_entry` (`src/jpg.rs`
lines 93–110); `none` is the `_` arm that logs and returns `None`. -/
def bytesPerComponent (data_format : Nat) : Option Nat :=
  match data_format with
  | 1 => some 1
  | 2 => some 1
  | 3 => some 2
  | 4 => some 4
  | 5 => some 8
  | 6 => some 1
  | 7 => some 1
  | 8 => some 2
  | 9 => some 4
  | 10 => some 8
  | 11 => some 4
  | 12 => some 8
  | _ => none

/-- The `value_data` selection of `parse_ifd_entry` (`src/jpg.rs` lines
114–120): inline record bytes `8..12` when `data_length <= 4`,
otherwise `app1_data[offset..offset + data_length]` where `offset` is
the little-endian u32 at record bytes `8..12` plus 8 (u32 arithmetic,
hence the `% 2^32`).  `none` models a slice-bounds panic. -/
def ifdValueData (data app1_data : List Nat) (data_length : Nat) : Option (List Nat) :=
  if data_length ≤ 4 then slice? data 8 12
  else
    match slice? data 8 12 with
    | none => none
    | some ob =>
      let offset := (le32 ob + 8) % 4294967296
      slice? app1_data offset ((offset + data_length) % 4294967296)

/-- The per-type value decode of `parse_ifd_entry` (`src/jpg.rs` lines
122–139), as a function of the type code and the selected value bytes.
`none` models a panic: an out-of-range `value_data[..]` read, or the
`unimplemented!()` arm (unreachable, since unrecognized type codes
return earlier). -/
def decodeIFDValue (data_format : Nat) (value_data : List Nat) : Option IFDValue :=
  match data_format with
  | 1 => (value_data.get? 0).map IFDValue.UnsignedByte
  | 2 => some (IFDValue.AsciiStrings (utf8Lossy value_data))
  | 3 => (slice? value_data 0 2).map (fun bs => IFDValue.UnsignedShort (le16 bs))
  | 4 => (slice? value_data 0 4).map (fun bs => IFDValue.UnsignedLong (le32 bs))
  | 5 => some IFDValue.UnsignedRational
  | 6 => (value_data.get? 0).map (fun b => IFDValue.SignedByte (toSigned b 256))
  | 7 => some (IFDValue.Undefined value_data)
  | 8 => (slice? value_data 0 2).map (fun bs => IFDValue.SignedShort (toSigned (le16 bs) 65536))
  | 9 => (slice? value_data 0 4).map (fun bs => IFDValue.SignedLong (toSigned (le32 bs) 4294967296))
  | 10 => some IFDValue.SignedRational
  | 11 => (slice? value_data 0 4).map IFDValue.SingleFloat
  | 12 => (slice? value_data 0 8).map IFDValue.DoubleFloat
  | _ => none

/-- `parse_ifd_entry` (`src/jpg.rs` lines 88–145).  Outer `none` models
a panic; `some none` is the Rust `None` (unrecognized type code, the
entry is dropped); `some (some e)` is `Some(entry)`. -/
def parse_ifd_entry (data app1_data : List Nat) : Option (Option IFDEntry) :=
  match slice? data 0 2 with
  | none => none
  | some tb =>
    match slice? data 2 4 with
    | none => none
    | some fb =>
      match slice? data 4 8 with
      | none => none
      | some cb =>
        let tag_number := le16 tb
        let data_format := le16 fb
        let number_of_components := le32 cb
        match bytesPerComponent data_format with
        | none => some none
        | some bpc =>
          let data_length := (bpc * number_of_components) % 4294967296
          match ifdValueData data app1_data data_length with
          | none => none
          | some value_data =>
            match decodeIFDValue data_format value_data with
            | none => none
            | some value => some (some ⟨tag_number, value⟩)

/-- The timestamp extraction applied to the entry found by
`entries.find(|e| e.tag == 0x0132)` (`src/jpg.rs` lines 50–61): the
value must be the `AsciiStrings` variant, whose string is then parsed
against the fixed date-time format.  The wrong-variant message models
the interpolated `anyhow!` message; the parse-failure message models
the `time` error propagated by `?`. -/
def ifdTimestamp (e : IFDEntry) : Except String DateTime :=
  match e.data with
  | IFDValue.AsciiStrings s =>
    match parsePrimitiveDateTime s with
    | some ts => Except.ok ts
    | none => Except.error msgBadDateTime
  | _ => Except.error msgWrongType

/-- The lazy `(0..number_of_entries).filter_map(..).find(|e| e.tag ==
0x0132)` iteration of `parse_ifd0`: entry `i` is sliced and decoded
only when reached, the loop stops at the first tag match.  `rem` is the
number of indices still to visit (structural fuel mirroring the finite
range `i..number_of_entries`).  Outer `none` models a panic while
decoding a visited entry; `some none` means the range was exhausted
without a tag match. -/
def findLoop (data app1_data : List Nat) : Nat → Nat → Option (Option IFDEntry)
  | _, 0 => some none
  | i, rem + 1 =>
    match slice? data (2 + 12 * i) (14 + 12 * i) with
    | none => none
    | some entry_data =>
      match parse_ifd_entry entry_data app1_data with
      | none => none
      | some none => findLoop data app1_data (i + 1) rem
      | some (some e) =>
        if e.tag = 306 then some (some e) else findLoop data app1_data (i + 1) rem

/-- `parse_ifd0` (`src/jpg.rs` lines 39–62).  Outer `none` models a
panic; `some none` is Rust `None` (no DateTime entry); `some (some r)`
is `Some(r)` with `r` the `Result` for the found entry. -/
def parse_ifd0 (data app1_data : List Nat) : Option (Option (Except String DateTime)) :=
  match slice? data 0 2 with
  | none => none
  | some cb =>
    match findLoop data app1_data 0 (le16 cb) with
    | none => none
    | some none => some none
    | some (some e) => some (some (ifdTimestamp e))

/-- The final `match` of `get_timestamp` (`src/jpg.rs` lines 32–36),
mapping the `parse_ifd0` outcome onto the function result (and
propagating a modelled panic). -/
def mapResult : Option (Option (Except String DateTime)) → Option (Except String (Option DateTime))
  | none => none
  | some none => some (Except.ok none)
  | some (some (Except.ok ts)) => some (Except.ok (some ts))
  | some (some (Except.error e)) => some (Except.error e)

/-- `get_timestamp` (`src/jpg.rs` lines 4–37).  Outer `none` models a
panic; otherwise the Rust `Result<Option<PrimitiveDateTime>>`. -/
def get_timestamp (data : List Nat) : Option (Except String (Option DateTime)) :=
  match slice? data 0 2 with
  | none => none
  | some soi =>
    if soi = soiSig then
      match data[2]? with
      | none => none
      | some b2 =>
        if b2 = 0xff then
          match data[3]? with
          | none => none
          | some b3 =>
            if b3 = 0xe1 then
              match slice? data 4 6 with
              | none => none
              | some lb =>
                match slice? data 4 (4 + be16 lb) with
                | none => none
                | some app1_data =>
                  match slice? app1_data 2 8 with
                  | none => none
                  | some ex =>
                    if ex = exifSig then
                      match slice? app1_data 8 12 with
                      | none => none
                      | some tf =>
                        if tf = tiffSig then
                          match slice? app1_data 12 16 with
                          | none => none
                          | some ob =>
                            match sliceFrom? app1_data (8 + le32 ob) with
                            | none => none
                            | some ifd0_data => mapResult (parse_ifd0 ifd0_data app1_data)
                        else some (Except.error msgTiff)
                    else some (Except.error msgExif)
            else some (Except.ok none)
        else some (Except.error msgMarker)
    else some (Except.error msgSOI)

/-- The container-scan phase of `get_timestamp` succeeded with APP1
segment `app1` and directory slice `ifd0`: each conjunct is one of the
reads/checks on the success path of `src/jpg.rs` lines 5–31. -/
def scanState (data app1 ifd0 : List Nat) : Prop :=
  slice? data 0 2 = some soiSig ∧
  data[2]? = some 0xff ∧
  data[3]? = some 0xe1 ∧
  ∃ lb, slice? data 4 6 = some lb ∧
    slice? data 4 (4 + be16 lb) = some app1 ∧
    slice? app1 2 8 = some exifSig ∧
    slice? app1 8 12 = some tiffSig ∧
    ∃ ob, slice? app1 12 16 = some ob ∧
      sliceFrom? app1 (8 + le32 ob) = some ifd0

/-- Directory entry `j` of `ifd0` can be sliced and decoded without
panicking, and is not a DateTime entry: it is either dropped for an
unrecognized type code, or its tag differs from `0x0132` (= 306). -/
def entryNonMatch (ifd0 app1 : List Nat) (j : Nat) : Prop :=
  ∃ ed r, slice? ifd0 (2 + 12 * j) (14 + 12 * j) = some ed ∧
    parse_ifd_entry ed app1 = some r ∧
    ∀ e, r = some e → e.tag ≠ 306

/-- The 19 ASCII bytes of the string "2023:07:04 10:30:00". -/
def dtBytes : List Nat := [50, 48, 50, 51, 58, 48, 55, 58, 48, 52, 32, 49, 48, 58, 51, 48, 58, 48, 48]

/-- The 19 ASCII bytes of "2023-07-04 10:30:00" (malformed separators). -/
def dtBadSep : List Nat := [50, 48, 50, 51, 45, 48, 55, 45, 48, 52, 32, 49, 48, 58, 51, 48, 58, 48, 48]

/-- The 19 ASCII bytes of the string "1999:01:01 00:00:00". -/
def dtBytes2 : List Nat := [49, 57, 57, 57, 58, 48, 49, 58, 48, 49, 32, 48, 48, 58, 48, 48, 58, 48, 48]

/-- Minimal synthetic JPEG+EXIF buffer: SOI, APP1 marker, 49-byte APP1
segment (big-endian length `0x0031`), EXIF and little-endian TIFF
signatures, IFD0 at TIFF offset 8, one ASCII (type 2) entry with tag
`0x0132` and component count 19 whose value is indirected (raw offset
22, so segment position 30) and holds "2023:07:04 10:30:00". -/
def c1buf : List Nat :=
  [0xff, 0xd8, 0xff, 0xe1] ++
  ([0x00, 0x31] ++ exifSig ++ tiffSig ++ [8, 0, 0, 0] ++ [1, 0] ++
   [0x32, 0x01, 2, 0, 19, 0, 0, 0, 22, 0, 0, 0] ++ dtBytes)

/-- Valid JPEG prefix whose APP1 length `0xFFFF` exceeds the 6-byte
buffer: `&data[4..4+65535]` is out of bounds. -/
def c4lenBuf : List Nat := [0xff, 0xd8, 0xff, 0xe1, 0xff, 0xff]

/-- Well-formed scan down to IFD0, whose declared entry count 1 extends
past the end of the segment (no entry record bytes follow). -/
def c4cntBuf : List Nat :=
  [0xff, 0xd8, 0xff, 0xe1] ++
  ([0x00, 0x12] ++ exifSig ++ tiffSig ++ [8, 0, 0, 0] ++ [1, 0])

/-- Well-formed scan with one ASCII entry of component count 100 whose
indirected value range `8..108` exceeds the 30-byte segment. -/
def c4indBuf : List Nat :=
  [0xff, 0xd8, 0xff, 0xe1] ++
  ([0x00, 0x1e] ++ exifSig ++ tiffSig ++ [8, 0, 0, 0] ++ [1, 0] ++
   [0x32, 0x01, 2, 0, 100, 0, 0, 0, 0, 0, 0, 0])

/-- Like `c1buf`, but the DateTime entry is typed unsigned long (type
code 4, component count 1, inline value 0). -/
def c6buf : List Nat :=
  [0xff, 0xd8, 0xff, 0xe1] ++
  ([0x00, 0x1e] ++ exifSig ++ tiffSig ++ [8, 0, 0, 0] ++ [1, 0] ++
   [0x32, 0x01, 4, 0, 1, 0, 0, 0, 0, 0, 0, 0])

/-- The APP1 segment bytes of `c6buf`. -/
def c6app1 : List Nat :=
  [0x00, 0x1e] ++ exifSig ++ tiffSig ++ [8, 0, 0, 0] ++ [1, 0] ++
  [0x32, 0x01, 4, 0, 1, 0, 0, 0, 0, 0, 0, 0]

/-- The IFD0 slice of `c6buf` (APP1 segment from position 16 on). -/
def c6ifd0 : List Nat := [1, 0] ++ [0x32, 0x01, 4, 0, 1, 0, 0, 0, 0, 0, 0, 0]

/-- Like `c1buf`, but the DateTime string is "2023-07-04 10:30:00". -/
def c7buf : List Nat :=
  [0xff, 0xd8, 0xff, 0xe1] ++
  ([0x00, 0x31] ++ exifSig ++ tiffSig ++ [8, 0, 0, 0] ++ [1, 0] ++
   [0x32, 0x01, 2, 0, 19, 0, 0, 0, 22, 0, 0, 0] ++ dtBadSep)

/-- The APP1 segment bytes of `c7buf`. -/
def c7app1 : List Nat :=
  [0x00, 0x31] ++ exifSig ++ tiffSig ++ [8, 0, 0, 0] ++ [1, 0] ++
  [0x32, 0x01, 2, 0, 19, 0, 0, 0, 22, 0, 0, 0] ++ dtBadSep

/-- The IFD0 slice of `c7buf` (APP1 segment from position 16 on). -/
def c7ifd0 : List Nat :=
  [1, 0] ++ [0x32, 0x01, 2, 0, 19, 0, 0, 0, 22, 0, 0, 0] ++ dtBadSep

/-- Directory with two entries: entry 0 has unrecognized type code 13,
entry 1 is a well-formed DateTime entry (value at segment position 42,
raw offset 34). -/
def c8buf : List Nat :=
  [0xff, 0xd8, 0xff, 0xe1] ++
  ([0x00, 0x3d] ++ exifSig ++ tiffSig ++ [8, 0, 0, 0] ++ [2, 0] ++
   [0x00, 0x01, 13, 0, 1, 0, 0, 0, 0, 0, 0, 0] ++
   [0x32, 0x01, 2, 0, 19, 0, 0, 0, 34, 0, 0, 0] ++ dtBytes)

/-- Directory with two DateTime entries holding different values:
"2023:07:04 10:30:00" (raw offset 34) then "1999:01:01 00:00:00"
(raw offset 53). -/
def c9buf : List Nat :=
  [0xff, 0xd8, 0xff, 0xe1] ++
  ([0x00, 0x50] ++ exifSig ++ tiffSig ++ [8, 0, 0, 0] ++ [2, 0] ++
   [0x32, 0x01, 2, 0, 19, 0, 0, 0, 34, 0, 0, 0] ++
   [0x32, 0x01, 2, 0, 19, 0, 0, 0, 53, 0, 0, 0] ++ dtBytes ++ dtBytes2)

/-- The APP1 segment bytes of `c9buf` (everything after the marker). -/
def c9app1 : List Nat :=
  [0x00, 0x50] ++ exifSig ++ tiffSig ++ [8, 0, 0, 0] ++ [2, 0] ++
  [0x32, 0x01, 2, 0, 19, 0, 0, 0, 34, 0, 0, 0] ++
  [0x32, 0x01, 2, 0, 19, 0, 0, 0, 53, 0, 0, 0] ++ dtBytes ++ dtBytes2

/-- The IFD0 slice of `c9buf` (APP1 segment from position 16 on). -/
def c9ifd0 : List Nat :=
  [2, 0] ++
  [0x32, 0x01, 2, 0, 19, 0, 0, 0, 34, 0, 0, 0] ++
  [0x32, 0x01, 2, 0, 19, 0, 0, 0, 53, 0, 0, 0] ++ dtBytes ++ dtBytes2

/-- The APP1 segment bytes of `c8buf`. -/
def c8app1 : List Nat :=
  [0x00, 0x3d] ++ exifSig ++ tiffSig ++ [8, 0, 0, 0] ++ [2, 0] ++
  [0x00, 0x01, 13, 0, 1, 0, 0, 0, 0, 0, 0, 0] ++
  [0x32, 0x01, 2, 0, 19, 0, 0, 0, 34, 0, 0, 0] ++ dtBytes

/-- The IFD0 slice of `c8buf` (APP1 segment from position 16 on). -/
def c8ifd0 : List Nat :=
  [2, 0] ++
  [0x00, 0x01, 13, 0, 1, 0, 0, 0, 0, 0, 0, 0] ++
  [0x32, 0x01, 2, 0, 19, 0, 0, 0, 34, 0, 0, 0] ++ dtBytes

/-- Like `c1buf`, but the component count is 20 and the value carries a
trailing NUL: "2023:07:04 10:30:00\x00". -/
def c10buf : List Nat :=
  [0xff, 0xd8, 0xff, 0xe1] ++
  ([0x00, 0x32] ++ exifSig ++ tiffSig ++ [8, 0, 0, 0] ++ [1, 0] ++
   [0x32, 0x01, 2, 0, 20, 0, 0, 0, 22, 0, 0, 0] ++ dtBytes ++ [0])

/-! ## Supporting lemmas -/

/-- When the container scan succeeds, the result of `get_timestamp` is
the `parse_ifd0` outcome mapped through `mapResult`. -/
lemma get_timestamp_scan (data app1 ifd0 : List Nat) (h : scanState data app1 ifd0) :
    get_timestamp data = mapResult (parse_ifd0 ifd0 app1) := by
  obtain ⟨h1, h2, h3, lb, h4, h5, h6, h7, ob, h8, h9⟩ := h
  simp [get_timestamp, h1, h2, h3, h4, h5, h6, h7, h8, h9]

/-- `mapResult` yields `Ok(None)` exactly for the no-entry outcome. -/
lemma mapResult_eq_ok_none (x : Option (Option (Except String DateTime))) :
    mapResult x = some (Except.ok none) ↔ x = some none := by
  rcases x with _ | (_ | (t | e)) <;> simp [mapResult]

/-- `parse_ifd0` yields `None` exactly when the entry count can be read
and the search exhausts the directory without a tag match. -/
lemma parse_ifd0_eq_some_none (d a : List Nat) :
    parse_ifd0 d a = some none ↔
      ∃ cb, slice? d 0 2 = some cb ∧ findLoop d a 0 (le16 cb) = some none := by
  constructor
  · intro h
    cases hcb : slice? d 0 2 with
    | none => simp [parse_ifd0, hcb] at h
    | some cb =>
      cases hf : findLoop d a 0 (le16 cb) with
      | none => simp [parse_ifd0, hcb, hf] at h
      | some r =>
        cases r with
        | none => exact ⟨cb, rfl, hf⟩
        | some e => simp [parse_ifd0, hcb, hf] at h
  · rintro ⟨cb, hcb, hf⟩
    simp [parse_ifd0, hcb, hf]

/-- The directory search exhausts without a match exactly when every
visited entry slices and decodes cleanly and none carries tag 0x0132. -/
lemma findLoop_eq_some_none (d a : List Nat) :
    ∀ rem i, findLoop d a i rem = some none ↔
      ∀ j, i ≤ j → j < i + rem → entryNonMatch d a j := by
  intro rem
  induction rem with
  | zero =>
    intro i
    constructor
    · intro _ j hij hj; omega
    · intro _; rfl
  | succ rem ih =>
    intro i
    constructor
    · intro h j hij hjn
      cases hs : slice? d (2 + 12 * i) (14 + 12 * i) with
      | none => simp [findLoop, hs] at h
      | some ed =>
        cases hp : parse_ifd_entry ed a with
        | none => simp [findLoop, hs, hp] at h
        | some r =>
          cases r with
          | none =>
            have h' : findLoop d a (i + 1) rem = some none := by
              simpa [findLoop, hs, hp] using h
            rcases Nat.eq_or_lt_of_le hij with heq | hlt
            · exact heq ▸ ⟨ed, none, hs, hp, fun e he => by cases he⟩
            · exact (ih (i + 1)).mp h' j hlt (by omega)
          | some e =>
            by_cases ht : e.tag = 306
            · simp [findLoop, hs, hp, ht] at h
            · have h' : findLoop d a (i + 1) rem = some none := by
                simpa [findLoop, hs, hp, ht] using h
              rcases Nat.eq_or_lt_of_le hij with heq | hlt
              · exact heq ▸ ⟨ed, some e, hs, hp, fun e' he' => by
                  cases he'; exact ht⟩
              · exact (ih (i + 1)).mp h' j hlt (by omega)
    · intro hall
      obtain ⟨ed, r, hs, hp, hr⟩ := hall i le_rfl (by omega)
      cases r with
      | none =>
        simp [findLoop, hs, hp]
        exact (ih (i + 1)).mpr (fun j h1 h2 => hall j (by omega) (by omega))
      | some e =>
        have ht : e.tag ≠ 306 := hr e rfl
        simp [findLoop, hs, hp, ht]
        exact (ih (i + 1)).mpr (fun j h1 h2 => hall j (by omega) (by omega))

/-- If entry `i` is the first tag match, the lazy search returns it;
nothing past index `i` is examined. -/
lemma findLoop_finds (d a : List Nat) (i : Nat) (ed : List Nat) (e : IFDEntry)
    (hs : slice? d (2 + 12 * i) (14 + 12 * i) = some ed)
    (hp : parse_ifd_entry ed a = some (some e))
    (ht : e.tag = 306) :
    ∀ rem i0, i0 ≤ i → i < i0 + rem →
      (∀ j, i0 ≤ j → j < i → entryNonMatch d a j) →
      findLoop d a i0 rem = some (some e) := by
  intro rem
  induction rem with
  | zero => intro i0 h1 h2 _; omega
  | succ rem ih =>
    intro i0 h1 h2 hpre
    rcases Nat.eq_or_lt_of_le h1 with heq | hlt
    · subst heq
      simp [findLoop, hs, hp, ht]
    · obtain ⟨ed0, r0, hs0, hp0, hr0⟩ := hpre i0 le_rfl hlt
      cases r0 with
      | none =>
        simp only [findLoop, hs0, hp0]
        exact ih (i0 + 1) hlt (by omega) (fun j hj1 hj2 => hpre j (by omega) hj2)
      | some e0 =>
        have ht0 : e0.tag ≠ 306 := hr0 e0 rfl
        simp only [findLoop, hs0, hp0, if_neg ht0]
        exact ih (i0 + 1) hlt (by omega) (fun j hj1 hj2 => hpre j (by omega) hj2)

/-! ## Claims -/

/-- Claim C1: on a minimal synthetic JPEG+EXIF buffer — first marker
after SOI is APP1, valid little-endian EXIF/TIFF signatures, IFD0 with
one ASCII-typed (type code 2) entry of tag 0x0132 holding exactly the
19 bytes "2023:07:04 10:30:00" — `get_timestamp` returns
`Ok(Some(t))` with `t` the calendar date 2023-07-04 at 10:30:00. -/
theorem c1_roundtrip_datetime :
    get_timestamp c1buf = some (Except.ok (some ⟨2023, 7, 4, 10, 30, 0⟩)) := rfl

/-- Claim C2: for a directory record with a recognized type code of
width `w` and component count `cnt` (u32 product not overflowing, and
the indirected range not wrapping), the selected value bytes are the
record's inline bytes 8..12 when `w * cnt ≤ 4`, and
`app1_data[offset + 8 .. offset + 8 + w * cnt]` otherwise, `offset`
being the little-endian u32 at record bytes 8..12; the ASCII decode is
a function of the selected bytes alone (equal underlying bytes give
identical decoded content), and ASCII entries have width 1, so a
4-byte string is inline and a 5+-byte one indirected. -/
theorem c2_inline_offset_routing (record app1 : List Nat) (fmt w cnt : Nat) (ib : List Nat)
    (hw : bytesPerComponent fmt = some w)
    (hib : slice? record 8 12 = some ib)
    (hov : w * cnt < 4294967296)
    (hoff : le32 ib + 8 + w * cnt < 4294967296) :
    (w * cnt ≤ 4 → ifdValueData record app1 ((w * cnt) % 4294967296) = some ib) ∧
    (4 < w * cnt → ifdValueData record app1 ((w * cnt) % 4294967296) =
      slice? app1 (le32 ib + 8) (le32 ib + 8 + w * cnt)) ∧
    (∀ bs, decodeIFDValue 2 bs = some (IFDValue.AsciiStrings (utf8Lossy bs))) ∧
    bytesPerComponent 2 = some 1 := by
  have hmod : (w * cnt) % 4294967296 = w * cnt := Nat.mod_eq_of_lt hov
  refine ⟨fun h4 => ?_, fun h4 => ?_, fun bs => rfl, rfl⟩
  · rw [ifdValueData, hmod, if_pos h4, hib]
  · simp only [ifdValueData, hmod, if_neg (by omega : ¬ w * cnt ≤ 4), hib]
    rw [Nat.mod_eq_of_lt (by omega : le32 ib + 8 < 4294967296),
      Nat.mod_eq_of_lt hoff]

/-- Witness for C2: an ASCII record of component count 4 is read inline
(bytes "ABCD" at record positions 8..12), and its decode is the lossy
conversion of exactly those bytes. -/
theorem c2_inline_offset_routing_witness :
    ((1 * 4 ≤ 4 ∧
      ifdValueData [0, 0, 2, 0, 4, 0, 0, 0, 65, 66, 67, 68] [] ((1 * 4) % 4294967296) =
        some [65, 66, 67, 68]) ∧
     decodeIFDValue 2 [65, 66, 67, 68] =
        some (IFDValue.AsciiStrings (utf8Lossy [65, 66, 67, 68]))) :=
  ⟨⟨by decide,
    (c2_inline_offset_routing [0, 0, 2, 0, 4, 0, 0, 0, 65, 66, 67, 68] [] 2 1 4
      [65, 66, 67, 68] rfl rfl (by decide) (by decide)).1 (by decide)⟩,
   (c2_inline_offset_routing [0, 0, 2, 0, 4, 0, 0, 0, 65, 66, 67, 68] [] 2 1 4
      [65, 66, 67, 68] rfl rfl (by decide) (by decide)).2.2.1 [65, 66, 67, 68]⟩

/-- Counterexample to C3 as stated: on the empty input, `get_timestamp`
does not fail with the missing-SOI error — it panics on the
out-of-range slice `data[0..2]` (modelled as `none`). -/
theorem c3_short_input_panics :
    get_timestamp [] = none ∧ get_timestamp [] ≠ some (Except.error msgSOI) :=
  ⟨rfl, fun h => Option.noConfusion h⟩

/-- Claim C3 (amended): for every byte sequence of length at least 2
whose first two bytes are not `0xFF 0xD8`, `get_timestamp` fails with
the "Missing SOI marker" error (shorter sequences panic instead). -/
theorem c3_missing_soi (data : List Nat) (h2 : 2 ≤ data.length)
    (hne : data.take 2 ≠ soiSig) :
    get_timestamp data = some (Except.error msgSOI) := by
  have hs : slice? data 0 2 = some (data.take 2) := by simp [slice?, h2]
  simp [get_timestamp, hs, hne]

/-- Witness for C3: the two-byte input `[0, 0]` yields the missing-SOI
error. -/
theorem c3_missing_soi_witness :
    (2 ≤ ([0, 0] : List Nat).length ∧ ([0, 0] : List Nat).take 2 ≠ soiSig) ∧
    get_timestamp [0, 0] = some (Except.error msgSOI) :=
  ⟨⟨by decide, by decide⟩, c3_missing_soi [0, 0] (by decide) (by decide)⟩

/-- Counterexample to C4 as stated: not every input shorter than 4
bytes panics — `[0, 0]` fails the SOI check first and returns an
ordinary `Err`, not a panic. -/
theorem c4_short_error_not_panic :
    get_timestamp [0, 0] = some (Except.error msgSOI) ∧ get_timestamp [0, 0] ≠ none :=
  ⟨rfl, fun h => Option.noConfusion h⟩

/-- Claim C4 (amended): `get_timestamp` is not total — it panics
(modelled as `none`) on inputs shorter than 4 bytes that pass the
marker checks made before the offending read (`[0xff, 0xd8]` hits
`data[2]`, `[0xff, 0xd8, 0xff]` hits `data[3]`), on an APP1 segment
length exceeding the buffer, on a directory entry count extending past
the segment, and on an indirected entry whose
`offset + 8 + total_length` exceeds the segment bounds. -/
theorem c4_panic_examples :
    get_timestamp [0xff, 0xd8] = none ∧
    get_timestamp [0xff, 0xd8, 0xff] = none ∧
    get_timestamp c4lenBuf = none ∧
    get_timestamp c4cntBuf = none ∧
    get_timestamp c4indBuf = none :=
  ⟨rfl, rfl, rfl, rfl, rfl⟩

/-- Claim C5: `get_timestamp` returns `Ok(None)` in exactly two cases —
valid SOI and marker prefix with a first marker other than APP1
(byte 3 not `0xE1` while byte 2 is `0xFF`), or a fully successful scan
whose directory decodes cleanly and contains no entry with tag 0x0132.
In particular a valid SOI followed by a non-`0xE1` second marker byte
gives `Ok(None)`, not an error. -/
theorem c5_ok_none_iff (data : List Nat) :
    get_timestamp data = some (Except.ok none) ↔
      (slice? data 0 2 = some soiSig ∧ data[2]? = some 0xff ∧
        ∃ b, data[3]? = some b ∧ b ≠ 0xe1) ∨
      (∃ app1 ifd0, scanState data app1 ifd0 ∧
        ∃ cb, slice? ifd0 0 2 = some cb ∧
          ∀ j, j < le16 cb → entryNonMatch ifd0 app1 j) := by
  constructor
  · intro h
    cases h0 : slice? data 0 2 with
    | none => simp [get_timestamp, h0] at h
    | some soi =>
      by_cases hsoi : soi = soiSig
      · subst hsoi
        cases h2 : data[2]? with
        | none => simp [get_timestamp, h0, h2] at h
        | some b2 =>
          by_cases hb2 : b2 = 0xff
          · subst hb2
            cases h3 : data[3]? with
            | none => simp [get_timestamp, h0, h2, h3] at h
            | some b3 =>
              by_cases hb3 : b3 = 0xe1
              · subst hb3
                cases h4 : slice? data 4 6 with
                | none => simp [get_timestamp, h0, h2, h3, h4] at h
                | some lb =>
                  cases h5 : slice? data 4 (4 + be16 lb) with
                  | none => simp [get_timestamp, h0, h2, h3, h4, h5] at h
                  | some app1 =>
                    cases h6 : slice? app1 2 8 with
                    | none => simp [get_timestamp, h0, h2, h3, h4, h5, h6] at h
                    | some ex =>
                      by_cases hex : ex = exifSig
                      · subst hex
                        cases h7 : slice? app1 8 12 with
                        | none => simp [get_timestamp, h0, h2, h3, h4, h5, h6, h7] at h
                        | some tf =>
                          by_cases htf : tf = tiffSig
                          · subst htf
                            cases h8 : slice? app1 12 16 with
                            | none =>
                              simp [get_timestamp, h0, h2, h3, h4, h5, h6, h7, h8] at h
                            | some ob =>
                              cases h9 : sliceFrom? app1 (8 + le32 ob) with
                              | none =>
                                simp [get_timestamp, h0, h2, h3, h4, h5, h6, h7, h8, h9] at h
                              | some ifd0 =>
                                have h' : mapResult (parse_ifd0 ifd0 app1) =
                                    some (Except.ok none) := by
                                  simpa [get_timestamp, h0, h2, h3, h4, h5, h6, h7, h8, h9]
                                    using h
                                have hp := (mapResult_eq_ok_none _).mp h'
                                obtain ⟨cb, hcb, hf⟩ := (parse_ifd0_eq_some_none _ _).mp hp
                                refine Or.inr ⟨app1, ifd0,
                                  ⟨h0, h2, h3, lb, h4, h5, h6, h7, ob, h8, h9⟩,
                                  cb, hcb, fun j hj => ?_⟩
                                exact (findLoop_eq_some_none ifd0 app1 (le16 cb) 0).mp hf
                                  j (Nat.zero_le j) (by omega)
                          · simp [get_timestamp, h0, h2, h3, h4, h5, h6, h7, htf] at h
                      · simp [get_timestamp, h0, h2, h3, h4, h5, h6, hex] at h
              · exact Or.inl ⟨rfl, rfl, b3, rfl, hb3⟩
          · simp [get_timestamp, h0, h2, hb2] at h
      · simp [get_timestamp, h0, hsoi] at h
  · intro h
    rcases h with ⟨h0, h2, b, h3, hb⟩ | ⟨app1, ifd0, hscan, cb, hcb, hall⟩
    · simp [get_timestamp, h0, h2, h3, hb]
    · rw [get_timestamp_scan data app1 ifd0 hscan]
      rw [mapResult_eq_ok_none, parse_ifd0_eq_some_none]
      exact ⟨cb, hcb, (findLoop_eq_some_none ifd0 app1 (le16 cb) 0).mpr
        (fun j h1 h2 => hall j (by omega))⟩

/-- Witness for C5: a valid SOI followed by marker `0xFF 0xE0` (APP0,
not APP1) yields `Ok(None)`. -/
theorem c5_ok_none_iff_witness :
    get_timestamp [0xff, 0xd8, 0xff, 0xe0] = some (Except.ok none) :=
  (c5_ok_none_iff [0xff, 0xd8, 0xff, 0xe0]).mpr
    (Or.inl ⟨rfl, rfl, 0xe0, rfl, by decide⟩)

/-- Claim C6: when the container scan succeeds and the directory search
finds an entry with tag 0x0132 whose decoded value is not the
`AsciiStrings` variant, `get_timestamp` returns the wrong-type error —
never `Ok(None)` and never `Ok(Some(_))`. -/
theorem c6_wrong_type_errors (data app1 ifd0 cb : List Nat) (e : IFDEntry)
    (hscan : scanState data app1 ifd0)
    (hcb : slice? ifd0 0 2 = some cb)
    (hfind : findLoop ifd0 app1 0 (le16 cb) = some (some e))
    (hne : ∀ s, e.data ≠ IFDValue.AsciiStrings s) :
    get_timestamp data = some (Except.error msgWrongType) := by
  rw [get_timestamp_scan data app1 ifd0 hscan]
  have hp : parse_ifd0 ifd0 app1 = some (some (ifdTimestamp e)) := by
    simp [parse_ifd0, hcb, hfind]
  rw [hp]
  cases hd : e.data <;>
    first
      | exact absurd hd (hne _)
      | simp [mapResult, ifdTimestamp, hd]

/-- Witness for C6: a DateTime entry typed unsigned long (type code 4)
makes `get_timestamp` fail hard. -/
theorem c6_wrong_type_errors_witness :
    get_timestamp c6buf = some (Except.error msgWrongType) :=
  c6_wrong_type_errors c6buf c6app1 c6ifd0 [1, 0] ⟨306, IFDValue.UnsignedLong 0⟩
    ⟨rfl, rfl, rfl, [0x00, 0x1e], rfl, rfl, rfl, rfl, [8, 0, 0, 0], rfl, rfl⟩
    rfl rfl (fun _ h => IFDValue.noConfusion h)

/-- Claim C7: when the found DateTime entry decodes to an ASCII string
that the fixed-format date-time parse rejects (wrong separators,
non-numeric fields, out-of-range components, trailing bytes),
`get_timestamp` returns an error, never `Ok(None)`. -/
theorem c7_bad_format_errors (data app1 ifd0 cb : List Nat) (e : IFDEntry) (s : List Nat)
    (hscan : scanState data app1 ifd0)
    (hcb : slice? ifd0 0 2 = some cb)
    (hfind : findLoop ifd0 app1 0 (le16 cb) = some (some e))
    (hdata : e.data = IFDValue.AsciiStrings s)
    (hbad : parsePrimitiveDateTime s = none) :
    get_timestamp data = some (Except.error msgBadDateTime) := by
  rw [get_timestamp_scan data app1 ifd0 hscan]
  have hp : parse_ifd0 ifd0 app1 = some (some (ifdTimestamp e)) := by
    simp [parse_ifd0, hcb, hfind]
  rw [hp]
  simp [mapResult, ifdTimestamp, hdata, hbad]

/-- Witness for C7: the string "2023-07-04 10:30:00" (separator `-`
instead of `:`) is rejected and `get_timestamp` fails hard. -/
theorem c7_bad_format_errors_witness :
    parsePrimitiveDateTime dtBadSep = none ∧
    get_timestamp c7buf = some (Except.error msgBadDateTime) :=
  ⟨rfl,
   c7_bad_format_errors c7buf c7app1 c7ifd0 [1, 0] ⟨306, IFDValue.AsciiStrings dtBadSep⟩
     dtBadSep
     ⟨rfl, rfl, rfl, [0x00, 0x31], rfl, rfl, rfl, rfl, [8, 0, 0, 0], rfl, rfl⟩
     rfl rfl rfl rfl⟩

/-- Claim C8: the fixed per-type width table maps 1→1, 2→1, 3→2, 4→4,
5→8, 6→1, 7→1, 8→2, 9→4, 10→8, 11→4, 12→8; every type code outside
1..=12 makes the entry decoder return `None` (after the fixed-header
reads), the search then skips the entry without aborting, and on a
directory whose first entry has type code 13 followed by a well-formed
DateTime entry, the timestamp is still found and decoded. -/
theorem c8_type_table :
    (bytesPerComponent 1 = some 1 ∧ bytesPerComponent 2 = some 1 ∧
     bytesPerComponent 3 = some 2 ∧ bytesPerComponent 4 = some 4 ∧
     bytesPerComponent 5 = some 8 ∧ bytesPerComponent 6 = some 1 ∧
     bytesPerComponent 7 = some 1 ∧ bytesPerComponent 8 = some 2 ∧
     bytesPerComponent 9 = some 4 ∧ bytesPerComponent 10 = some 8 ∧
     bytesPerComponent 11 = some 4 ∧ bytesPerComponent 12 = some 8) ∧
    (∀ fmt, ¬ (1 ≤ fmt ∧ fmt ≤ 12) → bytesPerComponent fmt = none) ∧
    (∀ record a tb fb cb, slice? record 0 2 = some tb → slice? record 2 4 = some fb →
      slice? record 4 8 = some cb → bytesPerComponent (le16 fb) = none →
      parse_ifd_entry record a = some none) ∧
    (∀ d a i rem ed, slice? d (2 + 12 * i) (14 + 12 * i) = some ed →
      parse_ifd_entry ed a = some none →
      findLoop d a i (rem + 1) = findLoop d a (i + 1) rem) ∧
    get_timestamp c8buf = some (Except.ok (some ⟨2023, 7, 4, 10, 30, 0⟩)) := by
  refine ⟨⟨rfl, rfl, rfl, rfl, rfl, rfl, rfl, rfl, rfl, rfl, rfl, rfl⟩,
    fun fmt h => ?_, fun record a tb fb cb h1 h2 h3 h4 => ?_,
    fun d a i rem ed hs hp => ?_, rfl⟩
  · rcases Nat.lt_or_ge fmt 13 with hlt | hge
    · interval_cases fmt <;> first | rfl | exact absurd ⟨by omega, by omega⟩ h
    · obtain ⟨n, rfl⟩ : ∃ n, fmt = n + 13 := ⟨fmt - 13, by omega⟩
      rfl
  · simp [parse_ifd_entry, h1, h2, h3, h4]
  · simp only [findLoop, hs, hp]

/-- Witness for C8: type code 13 is unrecognized, its 12-byte record
decodes to a dropped entry, and on the `c8buf` directory the search
over both entries equals the search starting after the dropped one. -/
theorem c8_type_table_witness :
    bytesPerComponent 13 = none ∧
    parse_ifd_entry [0x00, 0x01, 13, 0, 1, 0, 0, 0, 0, 0, 0, 0] [] = some none ∧
    findLoop c8ifd0 c8app1 0 (1 + 1) = findLoop c8ifd0 c8app1 (0 + 1) 1 :=
  ⟨c8_type_table.2.1 13 (by omega),
   c8_type_table.2.2.1 [0x00, 0x01, 13, 0, 1, 0, 0, 0, 0, 0, 0, 0] [] [0, 1] [13, 0]
     [1, 0, 0, 0] rfl rfl rfl (c8_type_table.2.1 13 (by omega)),
   c8_type_table.2.2.2.1 c8ifd0 c8app1 0 1 [0x00, 0x01, 13, 0, 1, 0, 0, 0, 0, 0, 0, 0]
     rfl rfl⟩

/-- Claim C9: when entry `i` is the first entry with tag 0x0132 (all
earlier entries decode cleanly and do not match), the result of
`get_timestamp` is fully determined by that entry's decoded value —
the directory contents beyond entry `i`, including any later duplicate
tag-0x0132 entries, never influence the result (the lazy search stops
at `i`). -/
theorem c9_first_match_determines (data app1 ifd0 cb ed : List Nat) (i : Nat) (e : IFDEntry)
    (hscan : scanState data app1 ifd0)
    (hcb : slice? ifd0 0 2 = some cb)
    (hi : i < le16 cb)
    (hpre : ∀ j, j < i → entryNonMatch ifd0 app1 j)
    (hs : slice? ifd0 (2 + 12 * i) (14 + 12 * i) = some ed)
    (hp : parse_ifd_entry ed app1 = some (some e))
    (ht : e.tag = 306) :
    get_timestamp data = mapResult (some (some (ifdTimestamp e))) := by
  rw [get_timestamp_scan data app1 ifd0 hscan]
  have hf : findLoop ifd0 app1 0 (le16 cb) = some (some e) :=
    findLoop_finds ifd0 app1 i ed e hs hp ht (le16 cb) 0 (Nat.zero_le i) (by omega)
      (fun j _ hj2 => hpre j hj2)
  simp [parse_ifd0, hcb, hf]

/-- Witness for C9: on a directory holding two DateTime entries
("2023:07:04 10:30:00" then "1999:01:01 00:00:00"), the first one
determines the result: `get_timestamp` yields the 2023 timestamp. -/
theorem c9_first_match_determines_witness :
    get_timestamp c9buf =
      mapResult (some (some (ifdTimestamp ⟨306, IFDValue.AsciiStrings dtBytes⟩))) ∧
    get_timestamp c9buf = some (Except.ok (some ⟨2023, 7, 4, 10, 30, 0⟩)) :=
  ⟨c9_first_match_determines c9buf c9app1 c9ifd0 [2, 0]
     [0x32, 0x01, 2, 0, 19, 0, 0, 0, 34, 0, 0, 0] 0 ⟨306, IFDValue.AsciiStrings dtBytes⟩
     ⟨rfl, rfl, rfl, [0x00, 0x50], rfl, rfl, rfl, rfl, [8, 0, 0, 0], rfl, rfl⟩
     rfl (by decide) (fun j hj => absurd hj (Nat.not_lt_zero j)) rfl rfl rfl,
   rfl⟩

/-- Claim C10: ASCII decoding never trims — it is the lossy conversion
of every selected value byte (on the inline path always all 4 inline
bytes, whatever the component count); a 20-byte DateTime value
"2023:07:04 10:30:00\x00" therefore decodes to a string containing
the trailing NUL, which the fixed-format parse rejects, so
`get_timestamp` returns an error rather than `Ok(Some(_))`. -/
theorem c10_no_trim_trailing_nul :
    (∀ bs, decodeIFDValue 2 bs = some (IFDValue.AsciiStrings (utf8Lossy bs))) ∧
    (∀ record app1 dl, dl ≤ 4 → ifdValueData record app1 dl = slice? record 8 12) ∧
    utf8Lossy (dtBytes ++ [0]) = dtBytes ++ [0] ∧
    parsePrimitiveDateTime (dtBytes ++ [0]) = none ∧
    get_timestamp c10buf = some (Except.error msgBadDateTime) :=
  ⟨fun bs => rfl,
   fun record app1 dl h => by rw [ifdValueData, if_pos h],
   rfl, rfl, rfl⟩

/-- Witness for C10: an inline selection with `data_length = 3` still
reads all four record bytes 8..12. -/
theorem c10_no_trim_trailing_nul_witness :
    (3 ≤ 4 ∧ ifdValueData [1, 2, 3, 4, 5, 6, 7, 8, 9, 10, 11, 12] [] 3 =
      slice? [1, 2, 3, 4, 5, 6, 7, 8, 9, 10, 11, 12] 8 12) :=
  ⟨by decide,
   c10_no_trim_trailing_nul.2.1 [1, 2, 3, 4, 5, 6, 7, 8, 9, 10, 11, 12] [] 3 (by decide)⟩
